import Mathlib

/-!
Shallow embedding of the network watchdog and screenshot watchdog of the
browser-use repository (files `network_watchdog.py` and
`screenshot_watchdog.py`), together with theorems settling the frozen
claims about the Request Lifecycle Correlation & Observation Engine.

Conventions of the embedding:
* Python `float` timestamps and timeouts are modelled as `Rat` (the code
  performs only exact arithmetic on them: subtraction, multiplication by
  1000, `max`).
* Python `None`-able attributes are `Option` fields.
* Python dictionaries coming from the wire (the CDP event payloads) are
  modelled as records of `Option` fields, mirroring each `event.get(...)`
  access; the dynamically-typed `initiator` value is modelled by the
  inductive `PyVal` type of Python values, because the code inspects it
  with `isinstance` and may crash on malformed shapes.
* Exceptions are modelled with `Except String`.
-/

/-- A dynamically-typed Python value, as far as the watchdog inspects one. -/
inductive PyVal where
  | none
  | bool (b : Bool)
  | int (n : Int)
  | str (s : String)
  | list (xs : List PyVal)
  | dict (es : List (String × PyVal))

/-- Python truthiness (`bool(v)`) for the shapes of `PyVal`. -/
def PyVal.truthy : PyVal → Bool
  | .none => false
  | .bool b => b
  | .int n => n != 0
  | .str s => s != ""
  | .list xs => !xs.isEmpty
  | .dict es => !es.isEmpty

/-- Python `d.get(k)` on a dictionary: the stored value, or `None` when the
key is absent. -/
def dGet : List (String × PyVal) → String → PyVal
  | [], _ => .none
  | (a, v) :: es, k => if a == k then v else dGet es k

mutual

/-- A structural size measure on `PyVal`, used as always-sufficient fuel
for the `while` loop of the stack-flattening algorithm. -/
def PyVal.size : PyVal → Nat
  | .none => 1
  | .bool _ => 1
  | .int _ => 1
  | .str _ => 1
  | .list xs => 1 + PyVal.sizeL xs
  | .dict es => 1 + PyVal.sizeD es

/-- Size of a list of Python values. -/
def PyVal.sizeL : List PyVal → Nat
  | [] => 1
  | v :: vs => 1 + PyVal.size v + PyVal.sizeL vs

/-- Size of the entry list of a Python dictionary. -/
def PyVal.sizeD : List (String × PyVal) → Nat
  | [] => 1
  | (_, v) :: es => 1 + PyVal.size v + PyVal.sizeD es

end

theorem PyVal.size_pos (v : PyVal) : 0 < v.size := by
  cases v <;> simp [PyVal.size]

theorem dGet_size_lt (es : List (String × PyVal)) (k : String) :
    (dGet es k).size < 1 + PyVal.sizeD es := by
  induction es with
  | nil => simp [dGet, PyVal.size, PyVal.sizeD]
  | cons p es ih =>
    obtain ⟨a, v⟩ := p
    simp only [dGet, PyVal.sizeD]
    split
    · omega
    · omega

/-- Python iteration as used by `list.extend(v)`: lists yield their
elements, strings their characters, dicts their keys; other truthy values
raise `TypeError`. -/
def pyIter : PyVal → Except String (List PyVal)
  | .list xs => .ok xs
  | .str s => .ok (s.toList.map fun c => .str c.toString)
  | .dict es => .ok (es.map fun p => .str p.1)
  | _ => .error "TypeError"

/-- The `while stack:` loop of `_extract_initiator_frames`, with an
explicit fuel argument used only to make the recursion structural: each
step of the Python loop concatenates the current stack's `callFrames`
(defaulting to `[]` when falsy) and follows the `parent` link.  A truthy
non-dict stack hits `stack.get('callFrames')` and raises `AttributeError`,
exactly as the Python does.  Since `parent` is a strict sub-value of the
stack, fuel `stack.size` always suffices (`flattenChainF_congr` below), so
the fuel is semantically invisible. -/
def flattenChainF : Nat → PyVal → Except String (List PyVal)
  | 0, _ => .ok []
  | fuel + 1, stack =>
    if stack.truthy then
      match stack with
      | .dict es =>
        let cf := dGet es "callFrames"
        let cfv := if cf.truthy then cf else .list []
        match pyIter cfv with
        | .error e => .error e
        | .ok frames =>
          match flattenChainF fuel (dGet es "parent") with
          | .error e => .error e
          | .ok rest => .ok (frames ++ rest)
      | _ => .error "AttributeError"
    else .ok []

theorem flattenChainF_congr (f₁ : Nat) :
    ∀ (f₂ : Nat) (stack : PyVal), stack.size ≤ f₁ → stack.size ≤ f₂ →
      flattenChainF f₁ stack = flattenChainF f₂ stack := by
  induction f₁ with
  | zero =>
    intro f₂ stack h₁ _
    have := PyVal.size_pos stack
    omega
  | succ n ih =>
    intro f₂ stack h₁ h₂
    have hpos := PyVal.size_pos stack
    cases f₂ with
    | zero => omega
    | succ m =>
      cases stack with
      | dict es =>
        have hd := dGet_size_lt es "parent"
        have hsz : (PyVal.dict es).size = 1 + PyVal.sizeD es := by simp [PyVal.size]
        have hn : (dGet es "parent").size ≤ n := by omega
        have hm : (dGet es "parent").size ≤ m := by omega
        simp only [flattenChainF]
        rw [ih m (dGet es "parent") hn hm]
      | none => rfl
      | bool b => rfl
      | int k => rfl
      | str s => rfl
      | list xs => rfl

/-- The `while stack:` loop of `_extract_initiator_frames` (fuel
instantiated with the always-sufficient `stack.size`). -/
def flattenChain (stack : PyVal) : Except String (List PyVal) :=
  flattenChainF stack.size stack

/-- `NetworkWatchdog._extract_initiator_frames`.  A non-dict initiator
yields `[]`; otherwise the chain hanging off `stack` (or, when that is
falsy, `stackTrace`) is flattened. -/
def extract_initiator_frames (initiator : PyVal) : Except String (List PyVal) :=
  match initiator with
  | .dict es =>
    let s₁ := dGet es "stack"
    let stack := if s₁.truthy then s₁ else dGet es "stackTrace"
    flattenChain stack
  | _ => .ok []

/-- `NetworkLogEntry`: one network request/response cycle. -/
structure NetworkLogEntry where
  request_id : String
  url : String
  method : String
  resource_type : String
  start_time : Rat
  status : Option Int := Option.none
  status_text : Option String := Option.none
  mime_type : Option String := Option.none
  error_text : Option String := Option.none
  initiator_type : Option PyVal := Option.none
  request_headers : List (String × String) := []
  response_headers : List (String × String) := []
  request_body_preview : Option String := Option.none
  encoded_data_length : Option Rat := Option.none
  end_time : Option Rat := Option.none
  stack_trace : List PyVal := []

/-- `NetworkLogEntry.duration_ms`: `max(0, (end_time - start_time) * 1000)`
when `end_time` is present, else null. -/
def NetworkLogEntry.duration_ms (e : NetworkLogEntry) : Option Rat :=
  match e.end_time with
  | Option.none => Option.none
  | some t => some (max 0 ((t - e.start_time) * 1000))

/-- Python truthiness of an `int | None` attribute (`None` and `0` falsy). -/
def optIntTruthy : Option Int → Bool
  | some n => n != 0
  | Option.none => false

/-- Python truthiness of a `str | None` attribute (`None` and `''` falsy). -/
def optStrTruthy : Option String → Bool
  | some s => s != ""
  | Option.none => false

/-- Floor of a rational, computed by floor-division of numerator by
denominator (the denominator of a `Rat` is positive). -/
def ratFloor (q : Rat) : Int := q.num.fdiv q.den

/-- Python `f'{x:.0f}'` rounding: round half to even, to an integer. -/
def pyRound0 (q : Rat) : Int :=
  let fl : Int := ratFloor q
  let frac : Rat := q - fl
  if frac < 1 / 2 then fl
  else if 1 / 2 < frac then fl + 1
  else if fl % 2 = 0 then fl else fl + 1

/-- The local `status_str` of `NetworkLogEntry.to_string`:
`str(status) if status else (f'FAILED({error_text})' if error_text else 'PENDING')`. -/
def NetworkLogEntry.status_str (e : NetworkLogEntry) : String :=
  if optIntTruthy e.status then toString (e.status.getD 0)
  else if optStrTruthy e.error_text then "FAILED(" ++ e.error_text.getD "" ++ ")"
  else "PENDING"

/-- The duration suffix of `NetworkLogEntry.to_string`:
`f' {duration_ms:.0f}ms'` when `duration_ms` is present, else the empty
string. -/
def NetworkLogEntry.duration_suffix (e : NetworkLogEntry) : String :=
  match e.duration_ms with
  | some d => " " ++ toString (pyRound0 d) ++ "ms"
  | Option.none => ""

/-- `NetworkLogEntry.to_string`: the compact one-line summary
`[{method}] {status_str} {url} ({resource_type}){duration}`. -/
def NetworkLogEntry.to_string (e : NetworkLogEntry) : String :=
  "[" ++ e.method ++ "] " ++ e.status_str ++ " " ++ e.url ++ " (" ++
    e.resource_type ++ ")" ++ e.duration_suffix

/-- The `response` dictionary of a CDP `Network.responseReceived` event, as
accessed by the handler (`response.get(...)` for each field). -/
structure ResponseData where
  status : Option Int := Option.none
  statusText : Option String := Option.none
  mimeType : Option String := Option.none
  headers : Option (List (String × String)) := Option.none
  responseTime : Option Rat := Option.none

/-- A CDP `Network.responseReceived` event; `response = Option.none` models
an event dictionary without a `response` key (the handler defaults it to
`{}`). -/
structure ResponseReceivedEvent where
  requestId : String
  response : Option ResponseData := Option.none

/-- A CDP `Network.loadingFailed` event. -/
structure LoadingFailedEvent where
  requestId : String
  errorText : Option String := Option.none
  timestamp : Option Rat := Option.none

/-- A CDP `Network.loadingFinished` event. -/
structure LoadingFinishedEvent where
  requestId : String
  encodedDataLength : Option Rat := Option.none
  timestamp : Option Rat := Option.none

/-- The `request` dictionary of a CDP `Network.requestWillBeSent` event. -/
structure RequestData where
  url : Option String := Option.none
  method : Option String := Option.none
  headers : List (String × String) := []
  postData : Option PyVal := Option.none

/-- A CDP `Network.requestWillBeSent` event. -/
structure RequestWillBeSentEvent where
  requestId : String
  type : Option String := Option.none
  request : Option RequestData := Option.none
  wallTime : Option Rat := Option.none
  initiator : PyVal := PyVal.none

/-- Python `x or y` on an optional float: `None` and `0.0` are falsy. -/
def pyOrRat (x y : Option Rat) : Option Rat :=
  match x with
  | some v => if v = 0 then y else some v
  | Option.none => y

/-- The mutation performed by `on_response` on the entry found for the
event's `requestId`: fill status/status_text/mime_type, overwrite
response_headers only when the response carries `headers`, and set
`end_time` from `responseTime or entry.end_time`. -/
def applyResponse (ev : ResponseReceivedEvent) (e : NetworkLogEntry) : NetworkLogEntry :=
  let r := ev.response.getD {}
  { e with
    status := r.status
    status_text := r.statusText
    mime_type := r.mimeType
    response_headers :=
      match r.headers with
      | some hs => hs
      | Option.none => e.response_headers
    end_time := pyOrRat r.responseTime e.end_time }

/-- The mutation performed by `on_failure`: set `error_text`; set the
sentinel status `0` only when `status` is still unset; set `end_time` from
the failure timestamp only when still unset. -/
def applyFailure (ev : LoadingFailedEvent) (e : NetworkLogEntry) : NetworkLogEntry :=
  let e₁ := { e with error_text := ev.errorText }
  let e₂ := if e₁.status = Option.none then { e₁ with status := some 0 } else e₁
  if e₂.end_time = Option.none then { e₂ with end_time := ev.timestamp } else e₂

/-- The mutation performed by `on_loading_finished`: set
`encoded_data_length` and set `end_time` unconditionally from the event's
timestamp. -/
def applyFinished (ev : LoadingFinishedEvent) (e : NetworkLogEntry) : NetworkLogEntry :=
  { e with
    encoded_data_length := ev.encodedDataLength
    end_time := ev.timestamp }

/-- `NetworkWatchdog.ignored_resource_types`. -/
def ignored_resource_types : List String :=
  ["Image", "Stylesheet", "Font", "Media", "Manifest", "Other"]

/-- The request-body preview built by `on_request`: only a `str` post body
is kept, truncated to 2000 characters with a suffix noting the omission. -/
def buildPreview (postData : Option PyVal) : Option String :=
  match postData with
  | some (.str s) =>
    some (if s.length ≤ 2000 then s
          else (s.take 2000) ++ "... (truncated " ++ toString (s.length - 2000) ++ " chars)")
  | _ => Option.none

/-- `event.get('initiator', {}).get('type') if isinstance(..., dict) else None`. -/
def initiatorType (initiator : PyVal) : Option PyVal :=
  match initiator with
  | .dict es =>
    match dGet es "type" with
    | .none => Option.none
    | v => some v
  | _ => Option.none

/-- The body of `on_request`: filter ignored resource types, flatten the
initiator stack (which may raise), and build the new entry.  `.ok
Option.none` means the event was filtered; `.error` models the handler
raising before the entry is appended. -/
def on_request_entry (ev : RequestWillBeSentEvent) : Except String (Option NetworkLogEntry) :=
  let resource_type := ev.type.getD "Unknown"
  if resource_type ∈ ignored_resource_types then .ok Option.none
  else
    let request := ev.request.getD {}
    match extract_initiator_frames ev.initiator with
    | .error msg => .error msg
    | .ok frames =>
      .ok (some
        { request_id := ev.requestId
          url := request.url.getD ""
          method := request.method.getD "GET"
          resource_type := resource_type
          start_time := ev.wallTime.getD 0
          initiator_type := initiatorType ev.initiator
          request_headers := request.headers
          request_body_preview := buildPreview request.postData
          stack_trace := frames })

/-- `deque(maxlen=m).append`: appending to a full deque silently drops the
oldest elements beyond the capacity. -/
def dequeAppend (maxlen : Nat) (xs : List α) (x : α) : List α :=
  let ys := xs ++ [x]
  if maxlen < ys.length then ys.drop (ys.length - maxlen) else ys

/-- One delivery of a `requestWillBeSent` event to a target's buffer: a
filtered event or a handler exception leaves the buffer unchanged. -/
def dispatchRequest (maxlen : Nat) (logs : List NetworkLogEntry)
    (ev : RequestWillBeSentEvent) : List NetworkLogEntry :=
  match on_request_entry ev with
  | .error _ => logs
  | .ok Option.none => logs
  | .ok (some entry) => dequeAppend maxlen logs entry

/-- Sequential delivery of a list of request events to one target's buffer,
starting from the freshly-created (empty) buffer. -/
def runRequests (maxlen : Nat) (evs : List RequestWillBeSentEvent) : List NetworkLogEntry :=
  evs.foldl (dispatchRequest maxlen) []

/-- `NetworkWatchdog.get_traffic_log`: the buffer of a target, or `[]` when
the target has no buffer. -/
def get_traffic_log (st : List (String × List NetworkLogEntry)) (tid : String) :
    List NetworkLogEntry :=
  match st.find? (fun p => p.1 == tid) with
  | some p => p.2
  | Option.none => []

/-- Whether `pat` occurs in `hay` starting at its head (helper for the
Python substring test). -/
def leadsWith : List Char → List Char → Bool
  | [], _ => true
  | _ :: _, [] => false
  | a :: as, b :: bs => a == b && leadsWith as bs

/-- Python `pat in hay` for strings over character lists: contiguous
substring occurrence. -/
def hasSub : List Char → List Char → Bool
  | pat, [] => pat.isEmpty
  | pat, h :: hs => leadsWith pat (h :: hs) || hasSub pat hs

/-- Python `pat in hay` on strings. -/
def str_in (pat hay : String) : Bool := hasSub pat.toList hay.toList

/-- Python `s.lower()`: character-wise lowercasing. -/
def pyLower (s : String) : String := String.mk (s.toList.map Char.toLower)

/-- The match predicate of `find_entry`:
`url_pattern.lower() in entry.url.lower()`. -/
def urlMatches (pattern : String) (e : NetworkLogEntry) : Bool :=
  str_in (pyLower pattern) (pyLower e.url)

/-- `NetworkWatchdog.find_entry`: scan the target's buffer most-recent
first and return the first entry whose URL contains the pattern
case-insensitively. -/
def find_entry (st : List (String × List NetworkLogEntry)) (tid : String)
    (pattern : String) : Option NetworkLogEntry :=
  (get_traffic_log st tid).reverse.find? (urlMatches pattern)

/-- Outcomes of the externally-provided steps of `attach_to_target`
(session creation, `Network.enable`, the four handler registrations); each
flag set to `false` models that step raising. -/
structure AttachEnv where
  sessionOk : Bool := true
  enableOk : Bool := true
  regRequestOk : Bool := true
  regResponseOk : Bool := true
  regFailedOk : Bool := true
  regFinishedOk : Bool := true

/-- The watchdog state touched by `attach_to_target`: the per-target log
buckets (`_network_logs`), the monitored-target set (`_monitored_targets`),
and the protocol subscriptions registered so far. -/
structure NetState where
  network_logs : List (String × List NetworkLogEntry) := []
  monitored_targets : List String := []
  registrations : List (String × String) := []

/-- The lazy bucket creation of `attach_to_target`:
`if target_id not in self._network_logs: ... = deque(maxlen=...)`. -/
def ensureBucket (st : NetState) (tid : String) : NetState :=
  if (st.network_logs.find? (fun p => p.1 == tid)).isSome then st
  else { st with network_logs := st.network_logs ++ [(tid, [])] }

/-- `NetworkWatchdog.attach_to_target`: return immediately when the target
is already monitored; otherwise run the attachment sequence inside a
`try/except Exception` that swallows any step's failure.  The returned
`Bool` records whether an exception escaped to the caller. -/
def attach_to_target (env : AttachEnv) (st : NetState) (tid : String) :
    NetState × Bool :=
  if tid ∈ st.monitored_targets then (st, false)
  else if ¬env.sessionOk then (st, false)
  else
    let st₁ := ensureBucket st tid
    if ¬env.enableOk then (st₁, false)
    else if ¬env.regRequestOk then (st₁, false)
    else
      let st₂ := { st₁ with registrations := st₁.registrations ++ [(tid, "requestWillBeSent")] }
      if ¬env.regResponseOk then (st₂, false)
      else
        let st₃ := { st₂ with registrations := st₂.registrations ++ [(tid, "responseReceived")] }
        if ¬env.regFailedOk then (st₃, false)
        else
          let st₄ := { st₃ with registrations := st₃.registrations ++ [(tid, "loadingFailed")] }
          if ¬env.regFinishedOk then (st₄, false)
          else
            let st₅ := { st₄ with registrations := st₄.registrations ++ [(tid, "loadingFinished")] }
            ({ st₅ with monitored_targets := st₅.monitored_targets ++ [tid] }, false)

/-- A browser target as seen by the screenshot watchdog. -/
structure TargetInfo where
  target_id : String
  target_type : String

/-- The result of the awaited `Page.captureScreenshot` round-trip:
successful payload, payload missing `data`, capture timeout, external
cancellation, or some other protocol failure. -/
inductive CaptureResult where
  | data (s : String)
  | noData
  | timeout
  | cancelled
  | failed (msg : String)

/-- The external world of one `on_ScreenshotEvent` call. `lockAvailableAfter
= some w` means the Capture Gate becomes available `w` time units into the
bounded wait; `Option.none` means it never does. -/
structure ScreenshotEnv where
  lockAvailableAfter : Option Rat := some 0
  cancelledDuringAcquire : Bool := false
  focused : Option TargetInfo := Option.none
  pageTargets : List TargetInfo := []
  sessionError : Option String := Option.none
  captureResult : CaptureResult := CaptureResult.noData

/-- How one `on_ScreenshotEvent` call ends at its caller. -/
inductive ScreenshotOutcome where
  | success (data : String)
  | contentionError
  | noPageTargetError
  | missingDataError
  | timedOut
  | cancelled
  | failed (msg : String)

/-- The acquisition-wait bound: `asyncio.wait_for(..., timeout=2.0)`. -/
def lock_wait_timeout : Rat := 2

/-- `timeout_seconds = event.event_timeout or 15.0` (Python `or`: `None`
and `0.0` fall back to the default). -/
def overallTimeout (event_timeout : Option Rat) : Rat :=
  match event_timeout with
  | some t => if t = 0 then 15 else t
  | Option.none => 15

/-- Whether the bounded wait acquires the Capture Gate: the gate must
become available within `lock_wait_timeout`. -/
def lockAcquired (env : ScreenshotEnv) : Bool :=
  match env.lockAvailableAfter with
  | some w => decide (w ≤ lock_wait_timeout)
  | Option.none => false

/-- The fallback branch of target selection: `page_targets[-1]`, or an
explicit error when no page target exists. -/
def fallbackTarget (env : ScreenshotEnv) : Option String :=
  match env.pageTargets.getLast? with
  | some t => some t.target_id
  | Option.none => Option.none

/-- Target selection of `on_ScreenshotEvent`: the focused target when it is
a top-level page/tab, else the most recent page target. -/
def selectTarget (env : ScreenshotEnv) : Option String :=
  match env.focused with
  | some t =>
    if t.target_type = "page" ∨ t.target_type = "tab" then some t.target_id
    else fallbackTarget env
  | Option.none => fallbackTarget env

/-- What the `try` body of `on_ScreenshotEvent` produces before the
`finally` block runs: the outcome, the `lock_acquired` flag, and the
timeout passed to the capture command when one was issued. -/
structure ScreenshotBody where
  outcome : ScreenshotOutcome
  lockAcquired : Bool
  captureTimeout : Option Rat

/-- The `try` body of `ScreenshotWatchdog.on_ScreenshotEvent`, path by
path: bounded-wait lock acquisition, target selection with page fallback,
session creation, and the capture round-trip with its budgeted timeout. -/
def screenshot_body (env : ScreenshotEnv) (event_timeout : Option Rat) :
    ScreenshotBody :=
  let timeout_seconds := overallTimeout event_timeout
  let capture_timeout := max (timeout_seconds - 2) 1
  if env.cancelledDuringAcquire then
    ⟨.cancelled, false, Option.none⟩
  else if ¬lockAcquired env then
    ⟨.contentionError, false, Option.none⟩
  else
    match selectTarget env with
    | Option.none => ⟨.noPageTargetError, true, Option.none⟩
    | some _ =>
      match env.sessionError with
      | some msg => ⟨.failed msg, true, Option.none⟩
      | Option.none =>
        match env.captureResult with
        | .data s => ⟨.success s, true, some capture_timeout⟩
        | .noData => ⟨.missingDataError, true, some capture_timeout⟩
        | .timeout => ⟨.timedOut, true, some capture_timeout⟩
        | .cancelled => ⟨.cancelled, true, some capture_timeout⟩
        | .failed m => ⟨.failed m, true, some capture_timeout⟩

/-- The `finally` clause: `if lock_acquired: self._screenshot_lock.release()`.
Returns whether the handler still holds the gate afterwards. -/
def releaseIfHeld (lock_acquired : Bool) : Bool :=
  if lock_acquired then false else lock_acquired

/-- The observable result of one `on_ScreenshotEvent` call after its
`finally` block. -/
structure ScreenshotRun where
  outcome : ScreenshotOutcome
  captureTimeout : Option Rat
  lockHeldAtExit : Bool

/-- `ScreenshotWatchdog.on_ScreenshotEvent`: the `try` body followed by the
`finally` release. -/
def on_ScreenshotEvent (env : ScreenshotEnv) (event_timeout : Option Rat) :
    ScreenshotRun :=
  let b := screenshot_body env event_timeout
  { outcome := b.outcome
    captureTimeout := b.captureTimeout
    lockHeldAtExit := releaseIfHeld b.lockAcquired }

/-- C4: the three-level initiator chain A→B→C with frames
[a1,a2]→[b1]→[c1,c2] flattens to [a1,a2,b1,c1,c2]; a non-dict initiator
yields the empty sequence; but — against the claim's "never raises" — a
dict initiator whose `stack` is a truthy non-dict value makes the code hit
`stack.get('callFrames')` on a non-dict and raise `AttributeError` (the
`isinstance` guard on the parent step comes too late to prevent it). -/
theorem C4_stack_flattening_eval :
    extract_initiator_frames
      (.dict [("stack",
        .dict [("callFrames", .list [.str "a1", .str "a2"]),
               ("parent",
                .dict [("callFrames", .list [.str "b1"]),
                       ("parent",
                        .dict [("callFrames", .list [.str "c1", .str "c2"])])])])])
      = .ok [.str "a1", .str "a2", .str "b1", .str "c1", .str "c2"] ∧
    extract_initiator_frames (.str "nope") = .ok [] ∧
    extract_initiator_frames (.int 7) = .ok [] ∧
    extract_initiator_frames PyVal.none = .ok [] ∧
    extract_initiator_frames (.dict [("stack", .str "oops")]) = .error "AttributeError" :=
  ⟨rfl, rfl, rfl, rfl, rfl⟩

/-- C9: `to_string` renders a completed status-200 entry as
`[METHOD] 200 URL (TYPE)` plus the duration suffix, and an entry that
failed before any response (sentinel status `0`, nonempty `error_text`) as
`[METHOD] FAILED(error_text) URL (TYPE)` plus the duration suffix. -/
theorem C9_render_summary (e : NetworkLogEntry) :
    (e.status = some 200 →
      e.to_string =
        "[" ++ e.method ++ "] " ++ "200" ++ " " ++ e.url ++ " (" ++
          e.resource_type ++ ")" ++ e.duration_suffix) ∧
    (∀ et, e.status = some 0 → e.error_text = some et → et ≠ "" →
      e.to_string =
        "[" ++ e.method ++ "] " ++ ("FAILED(" ++ et ++ ")") ++ " " ++ e.url ++ " (" ++
          e.resource_type ++ ")" ++ e.duration_suffix) := by
  constructor
  · intro h
    simp only [NetworkLogEntry.to_string, NetworkLogEntry.status_str, optIntTruthy, h]
    rfl
  · intro et h he hne
    simp [NetworkLogEntry.to_string, NetworkLogEntry.status_str, optIntTruthy,
      optStrTruthy, h, he, hne]

/-- The entry of the C9 success scenario: `GET https://api.example.com/v1/search`
(type XHR), response status 200, completed half a second after dispatch. -/
def eC9 : NetworkLogEntry :=
  { request_id := "r1", url := "https://api.example.com/v1/search", method := "GET"
    resource_type := "XHR", start_time := 100, status := some 200
    end_time := some (201 / 2) }

/-- The entry of the C9 failure scenario: loading failed with
`errorText = net::ERR_CONNECTION_RESET` before any response. -/
def eC9f : NetworkLogEntry :=
  { request_id := "r1", url := "https://api.example.com/v1/search", method := "GET"
    resource_type := "XHR", start_time := 100, status := some 0
    error_text := some "net::ERR_CONNECTION_RESET" }

/-- Witness for C9 at the spec's own scenario strings. -/
theorem C9_render_summary_witness :
    eC9.to_string = "[GET] 200 https://api.example.com/v1/search (XHR) 500ms" ∧
    eC9f.to_string =
      "[GET] FAILED(net::ERR_CONNECTION_RESET) https://api.example.com/v1/search (XHR)" := by
  constructor
  · have h := (C9_render_summary eC9).1 rfl
    rw [h]
    have h1 : ((201 : Rat) / 2 - 100) * 1000 = 500 := by norm_num
    simp [NetworkLogEntry.duration_suffix, NetworkLogEntry.duration_ms, eC9, h1]
    norm_num [pyRound0, ratFloor]
    rfl
  · have h := (C9_render_summary eC9f).2 "net::ERR_CONNECTION_RESET" rfl rfl (by decide)
    rw [h]
    simp [NetworkLogEntry.duration_suffix, NetworkLogEntry.duration_ms, eC9f]

/-- The C10 counterexample entry: sentinel status `0` with `error_text`
set to the empty string. -/
def eC10 : NetworkLogEntry :=
  { request_id := "r1", url := "u", method := "GET", resource_type := "XHR"
    start_time := 0, status := some 0, error_text := some "" }

/-- C10 counterexample: an entry with status `0` and `error_text` set (to
`""`, which is non-null) renders `PENDING`, not `FAILED()` — Python
truthiness treats the empty error string like `None`, so the claim's
"shows FAILED(<error_text>) when error_text is set" fails. -/
theorem C10_sentinel_render_counterexample :
    eC10.status = some 0 ∧ eC10.error_text = some "" ∧
    eC10.error_text ≠ Option.none ∧
    eC10.to_string = "[GET] PENDING u (XHR)" := by
  refine ⟨rfl, rfl, by simp [eC10], ?_⟩
  simp [NetworkLogEntry.to_string, NetworkLogEntry.status_str, optIntTruthy,
    optStrTruthy, eC10, NetworkLogEntry.duration_suffix, NetworkLogEntry.duration_ms]

/-- C10 (amended): for an entry with sentinel status `0`, the status
portion of the summary is `FAILED(<error_text>)` when `error_text` is set
and nonempty, `PENDING` when `error_text` is null or empty, and is never
the literal string "0". -/
theorem C10_sentinel_render_amended (e : NetworkLogEntry) (h : e.status = some 0) :
    e.status_str ≠ "0" ∧
    (∀ et, e.error_text = some et → et ≠ "" →
      e.status_str = "FAILED(" ++ et ++ ")") ∧
    ((e.error_text = Option.none ∨ e.error_text = some "") →
      e.status_str = "PENDING") := by
  refine ⟨?_, ?_, ?_⟩
  · cases he : e.error_text with
    | none => simp [NetworkLogEntry.status_str, optIntTruthy, optStrTruthy, h, he]
    | some et =>
      by_cases hne : et = ""
      · simp [NetworkLogEntry.status_str, optIntTruthy, optStrTruthy, h, he, hne]
      · simp only [NetworkLogEntry.status_str, optIntTruthy, optStrTruthy, h, he]
        simp [hne]
        intro hEq
        have hlen := congrArg String.length hEq
        have h7 : "FAILED(".length = 7 := rfl
        have hp : ")".length = 1 := rfl
        have h0 : "0".length = 1 := rfl
        rw [String.length_append, String.length_append, h7, hp, h0] at hlen
        omega
  · intro et he hne
    simp [NetworkLogEntry.status_str, optIntTruthy, optStrTruthy, h, he, hne]
  · intro he
    rcases he with he | he <;>
      simp [NetworkLogEntry.status_str, optIntTruthy, optStrTruthy, h, he]

/-- Witness for the amended C10 at concrete entries. -/
theorem C10_sentinel_render_witness :
    ({ eC10 with error_text := some "net::ERR_FAILED" } : NetworkLogEntry).status_str
      = "FAILED(net::ERR_FAILED)" ∧
    ({ eC10 with error_text := Option.none } : NetworkLogEntry).status_str = "PENDING" ∧
    eC10.status_str ≠ "0" := by
  refine ⟨?_, ?_, ?_⟩
  · exact (C10_sentinel_render_amended _ rfl).2.1 "net::ERR_FAILED" rfl (by decide)
  · exact (C10_sentinel_render_amended _ rfl).2.2 (Or.inl rfl)
  · exact (C10_sentinel_render_amended eC10 rfl).1

/-- A freshly-created entry for the correlator claims: what `on_request`
appends for a plain XHR dispatch, before any completion event arrives. -/
def eFresh : NetworkLogEntry :=
  { request_id := "rX", url := "https://api.example.com/v1/data", method := "GET"
    resource_type := "XHR", start_time := 10 }

/-- C3 counterexample: a response event that supplies status `0` leaves the
entry's status equal to `0` in both orders, although a status *was*
supplied — falsifying "status equals the sentinel 0 only if no status was
ever supplied by the response event". -/
theorem C3_sentinel_counterexample :
    (({ requestId := "rX", response := some { status := some 0 } } :
        ResponseReceivedEvent).response.getD {}).status = some 0 ∧
    (applyFailure { requestId := "rX" }
      (applyResponse { requestId := "rX", response := some { status := some 0 } }
        eFresh)).status = some 0 ∧
    (applyResponse { requestId := "rX", response := some { status := some 0 } }
      (applyFailure { requestId := "rX" } eFresh)).status = some 0 :=
  ⟨rfl, rfl, rfl⟩

/-- C3 (amended): one response event and one failure event for the same
request, applied in either order, leave `status = 0` only if the response
supplied no status or itself supplied status `0`; whenever the response
supplied a status, that status is the final value in both orders. -/
theorem C3_status_merge_amended (e : NetworkLogEntry) (rev : ResponseReceivedEvent)
    (fev : LoadingFailedEvent) :
    ((applyFailure fev (applyResponse rev e)).status = some 0 →
      (rev.response.getD {}).status = Option.none ∨
        (rev.response.getD {}).status = some 0) ∧
    ((applyResponse rev (applyFailure fev e)).status = some 0 →
      (rev.response.getD {}).status = Option.none ∨
        (rev.response.getD {}).status = some 0) ∧
    (∀ s, (rev.response.getD {}).status = some s →
      (applyFailure fev (applyResponse rev e)).status = some s ∧
      (applyResponse rev (applyFailure fev e)).status = some s) := by
  have hr2 : ∀ e', (applyResponse rev e').status = (rev.response.getD {}).status := by
    intro e'
    simp [applyResponse]
  have hf : ∀ e', (applyFailure fev e').status =
      (if e'.status = Option.none then some 0 else e'.status) := by
    intro e'
    simp only [applyFailure]
    split <;> split <;> simp_all
  refine ⟨?_, ?_, ?_⟩
  · intro h
    rw [hf, hr2] at h
    cases hs : (rev.response.getD {}).status with
    | none => exact Or.inl rfl
    | some s =>
      rw [hs] at h
      simp at h
      simp [h]
  · intro h
    rw [hr2] at h
    exact Or.inr h
  · intro s hs
    constructor
    · rw [hf, hr2, hs]
      simp
    · rw [hr2, hs]

/-- Witness for the amended C3: a supplied status `200` wins in both
orders, and with no supplied status the sentinel can only arise as `0`. -/
theorem C3_status_merge_witness :
    (applyFailure { requestId := "rX", errorText := some "net::ERR_ABORTED" }
      (applyResponse { requestId := "rX", response := some { status := some 200 } }
        eFresh)).status = some 200 ∧
    (applyResponse { requestId := "rX", response := some { status := some 200 } }
      (applyFailure { requestId := "rX", errorText := some "net::ERR_ABORTED" }
        eFresh)).status = some 200 :=
  C3_status_merge_amended eFresh
    { requestId := "rX", response := some { status := some 200 } }
    { requestId := "rX", errorText := some "net::ERR_ABORTED" } |>.2.2 200 rfl

/-- Field-wise completeness order on entries: every nullable field that is
non-null in `e` is still non-null in `e'`. -/
def completeness (e e' : NetworkLogEntry) : Prop :=
  (e.status.isSome → e'.status.isSome) ∧
  (e.status_text.isSome → e'.status_text.isSome) ∧
  (e.mime_type.isSome → e'.mime_type.isSome) ∧
  (e.error_text.isSome → e'.error_text.isSome) ∧
  (e.initiator_type.isSome → e'.initiator_type.isSome) ∧
  (e.request_body_preview.isSome → e'.request_body_preview.isSome) ∧
  (e.encoded_data_length.isSome → e'.encoded_data_length.isSome) ∧
  (e.end_time.isSome → e'.end_time.isSome)

/-- The C1 counterexample failure event: a loading failure with error text
and timestamp, arriving right after creation. -/
def fevC1 : LoadingFailedEvent :=
  { requestId := "rX", errorText := some "net::ERR_FAILED", timestamp := some 11 }

/-- The C1 counterexample response event: a `responseReceived` whose
`response` dictionary is present but carries no `status` key. -/
def revC1 : ResponseReceivedEvent := { requestId := "rX", response := some {} }

/-- C1 counterexample: after creation and a failure event the entry's
status is the non-null sentinel `0`; a subsequent response event whose
`response` dictionary carries no `status` key overwrites it with null —
a non-null field is retracted by a handler, falsifying the claim. -/
theorem C1_field_retracted_counterexample :
    (applyFailure fevC1 eFresh).status = some 0 ∧
    (applyResponse revC1 (applyFailure fevC1 eFresh)).status = Option.none ∧
    ¬completeness (applyFailure fevC1 eFresh)
      (applyResponse revC1 (applyFailure fevC1 eFresh)) := by
  refine ⟨rfl, rfl, ?_⟩
  intro hc
  have h1 := hc.1
  rw [show (applyFailure fevC1 eFresh).status = some 0 from rfl] at h1
  have h2 := h1 (by simp)
  rw [show (applyResponse revC1 (applyFailure fevC1 eFresh)).status = Option.none
    from rfl] at h2
  simp at h2

/-- C1 (amended): each late-arriving handler only adds to or overwrites an
entry toward completeness — every field non-null before the handler runs
is non-null after it — provided the event carries the values its handler
copies unconditionally: the response event carries `status`, `statusText`
and `mimeType`; the failure event carries `errorText`; the finished event
carries `encodedDataLength` and a `timestamp`. -/
theorem C1_fields_monotone_amended (e : NetworkLogEntry)
    (rev : ResponseReceivedEvent) (fev : LoadingFailedEvent)
    (lev : LoadingFinishedEvent) (rd : ResponseData)
    (hr : rev.response = some rd)
    (hs : rd.status.isSome) (hst : rd.statusText.isSome) (hmt : rd.mimeType.isSome)
    (he : fev.errorText.isSome)
    (hl : lev.encodedDataLength.isSome) (ht : lev.timestamp.isSome) :
    completeness e (applyResponse rev e) ∧
    completeness e (applyFailure fev e) ∧
    completeness e (applyFinished lev e) := by
  refine ⟨?_, ?_, ?_⟩
  · refine ⟨?_, ?_, ?_, ?_, ?_, ?_, ?_, ?_⟩ <;>
      simp only [applyResponse, hr, Option.getD_some] <;> intro hb
    · exact hs
    · exact hst
    · exact hmt
    · exact hb
    · exact hb
    · exact hb
    · exact hb
    · cases hx : rd.responseTime with
      | none => simpa [pyOrRat, hx] using hb
      | some v =>
        by_cases hv : v = 0
        · simpa [pyOrRat, hx, hv] using hb
        · simp [pyOrRat, hx, hv]
  · have hst2 : (applyFailure fev e).status.isSome := by
      simp only [applyFailure]
      split <;> split <;> simp_all [Option.isSome_iff_ne_none]
    have het : (applyFailure fev e).error_text = fev.errorText := by
      simp only [applyFailure]
      split <;> split <;> simp_all
    have hen : e.end_time.isSome → (applyFailure fev e).end_time.isSome := by
      intro hb
      simp only [applyFailure]
      split
      · split
        · simp_all
        · simpa using hb
      · split
        · simp_all
        · simpa using hb
    have hrest : (applyFailure fev e).status_text = e.status_text ∧
        (applyFailure fev e).mime_type = e.mime_type ∧
        (applyFailure fev e).initiator_type = e.initiator_type ∧
        (applyFailure fev e).request_body_preview = e.request_body_preview ∧
        (applyFailure fev e).encoded_data_length = e.encoded_data_length := by
      simp only [applyFailure]
      split <;> split <;> simp_all
    refine ⟨fun _ => hst2, ?_, ?_, fun _ => ?_, ?_, ?_, ?_, hen⟩
    · intro hb
      rw [hrest.1]
      exact hb
    · intro hb
      rw [hrest.2.1]
      exact hb
    · rw [het]
      exact he
    · intro hb
      rw [hrest.2.2.1]
      exact hb
    · intro hb
      rw [hrest.2.2.2.1]
      exact hb
    · intro hb
      rw [hrest.2.2.2.2]
      exact hb
  · refine ⟨?_, ?_, ?_, ?_, ?_, ?_, ?_, ?_⟩ <;>
      simp only [applyFinished] <;> intro hb <;> simp_all

/-- A fully-populated response payload for the C1 witness. -/
def rdC1 : ResponseData :=
  { status := some 200, statusText := some "OK", mimeType := some "application/json" }

/-- A response event carrying the payload `rdC1`. -/
def revC1w : ResponseReceivedEvent := { requestId := "r1", response := some rdC1 }

/-- A fully-populated failure event for the C1 witness. -/
def fevC1w : LoadingFailedEvent :=
  { requestId := "r1", errorText := some "net::ERR_FAILED", timestamp := some 12 }

/-- A fully-populated finished event for the C1 witness. -/
def levC1w : LoadingFinishedEvent :=
  { requestId := "r1", encodedDataLength := some 1024, timestamp := some 12 }

/-- Witness for the amended C1: fully-populated events preserve every
non-null field of an entry that already has a status and an end time. -/
theorem C1_fields_monotone_witness :
    completeness eC9 (applyResponse revC1w eC9) ∧
    completeness eC9 (applyFailure fevC1w eC9) ∧
    completeness eC9 (applyFinished levC1w eC9) :=
  C1_fields_monotone_amended eC9 revC1w fevC1w levC1w rdC1 rfl rfl rfl rfl rfl rfl rfl

/-- `find?` finds the first satisfying element: the list splits at the
found element and everything before it fails the predicate. -/
theorem find?_split {α : Type} (p : α → Bool) :
    ∀ (l : List α) (a : α), l.find? p = some a →
      ∃ u v, l = u ++ a :: v ∧ p a = true ∧ ∀ b ∈ u, p b = false := by
  intro l
  induction l with
  | nil =>
    intro a h
    simp at h
  | cons x xs ih =>
    intro a h
    by_cases hx : p x
    · rw [List.find?_cons_of_pos _ hx] at h
      obtain rfl : x = a := Option.some.inj h
      exact ⟨[], xs, rfl, hx, by simp⟩
    · rw [List.find?_cons_of_neg _ hx] at h
      obtain ⟨u, v, rfl, hp, hu⟩ := ih a h
      refine ⟨x :: u, v, rfl, hp, ?_⟩
      intro b hb
      rcases List.mem_cons.mp hb with rfl | hb
      · simpa using hx
      · exact hu b hb

/-- C8: `find_entry` returns null when the target is unknown, returns null
exactly when no buffered entry's URL contains the pattern
case-insensitively, and otherwise returns a matching entry with no
matching entry inserted after it (i.e. the most recently inserted match). -/
theorem C8_find_entry_spec (st : List (String × List NetworkLogEntry))
    (tid pattern : String) :
    (st.find? (fun p => p.1 == tid) = Option.none →
      find_entry st tid pattern = Option.none) ∧
    (find_entry st tid pattern = Option.none ↔
      ∀ e ∈ get_traffic_log st tid, urlMatches pattern e = false) ∧
    (∀ e, find_entry st tid pattern = some e →
      urlMatches pattern e = true ∧
      ∃ u v, get_traffic_log st tid = u ++ e :: v ∧
        ∀ b ∈ v, urlMatches pattern b = false) := by
  refine ⟨?_, ?_, ?_⟩
  · intro h
    simp [find_entry, get_traffic_log, h]
  · constructor
    · intro h e he
      have hall := List.find?_eq_none.mp (by simpa [find_entry] using h)
      have h2 := hall e he
      simpa using h2
    · intro h
      simp only [find_entry]
      apply List.find?_eq_none.mpr
      intro x hx
      simp [h x (List.mem_reverse.mp hx)]
  · intro e h
    obtain ⟨u, v, heq, hp, hu⟩ := find?_split _ _ e (by simpa [find_entry] using h)
    refine ⟨hp, v.reverse, u.reverse, ?_, ?_⟩
    · calc get_traffic_log st tid
          = (get_traffic_log st tid).reverse.reverse := by simp
        _ = (u ++ e :: v).reverse := by rw [heq]
        _ = v.reverse ++ e :: u.reverse := by simp
    · intro b hb
      exact hu b (List.mem_reverse.mp hb)

/-- Three buffered entries for the C8 witness: the first and third match
the pattern `API` case-insensitively, the middle one does not. -/
def eW1 : NetworkLogEntry :=
  { request_id := "w1", url := "https://api.example.com/a", method := "GET"
    resource_type := "XHR", start_time := 0 }

/-- The non-matching middle entry of the C8 witness buffer. -/
def eW2 : NetworkLogEntry :=
  { request_id := "w2", url := "https://other.example.com/x", method := "GET"
    resource_type := "Fetch", start_time := 1 }

/-- The most recently inserted matching entry of the C8 witness buffer. -/
def eW3 : NetworkLogEntry :=
  { request_id := "w3", url := "https://api.example.com/c", method := "POST"
    resource_type := "XHR", start_time := 2 }

/-- Witness for C8: with two matching entries buffered, `find_entry`
returns the most recently inserted one, and no match follows it. -/
theorem C8_find_entry_witness :
    urlMatches "API" eW3 = true ∧
    ∃ u v, get_traffic_log [("t", [eW1, eW2, eW3])] "t" = u ++ eW3 :: v ∧
      ∀ b ∈ v, urlMatches "API" b = false :=
  (C8_find_entry_spec [("t", [eW1, eW2, eW3])] "t" "API").2.2 eW3 (by rfl)

/-- The `i`-th request event of the C2 eviction scenario: a plain XHR
dispatch with request id `r<i>`. -/
def mkReq (i : Nat) : RequestWillBeSentEvent :=
  { requestId := "r" ++ toString i, type := some "XHR"
    request := some { url := some ("https://api.example.com/item/" ++ toString i)
                      method := some "GET" }
    wallTime := some (i : Rat) }

/-- The 205 sequential request dispatches of the C2 scenario. -/
def evsC2 : List RequestWillBeSentEvent := (List.range 205).map fun i => mkReq (i + 1)

/-- A bounded append keeps the buffer within a positive capacity. -/
theorem dequeAppend_length_le {α : Type} (m : Nat) (hm : 1 ≤ m) (xs : List α) (x : α)
    (h : xs.length ≤ m) : (dequeAppend m xs x).length ≤ m := by
  simp only [dequeAppend]
  split
  · rename_i hlt
    simp only [List.length_drop, List.length_append, List.length_cons,
      List.length_nil] at hlt ⊢
    omega
  · rename_i hlt
    simp only [List.length_append, List.length_cons, List.length_nil] at hlt ⊢
    omega

/-- Folding request dispatches over a buffer within capacity keeps it
within capacity. -/
theorem foldl_dispatch_length_le (cap : Nat) (hm : 1 ≤ cap) :
    ∀ (evs : List RequestWillBeSentEvent) (logs : List NetworkLogEntry),
      logs.length ≤ cap → (evs.foldl (dispatchRequest cap) logs).length ≤ cap := by
  intro evs
  induction evs with
  | nil =>
    intro logs h
    simpa using h
  | cons ev evs ih =>
    intro logs h
    simp only [List.foldl_cons]
    apply ih
    simp only [dispatchRequest]
    split
    · exact h
    · exact h
    · exact dequeAppend_length_le cap hm _ _ h

set_option maxRecDepth 40000 in
/-- C2: for every capacity `cap ≥ 1` and every sequence of
request-dispatched events, the buffer never exceeds `cap` entries; and in
the concrete scenario of 205 sequential dispatches at the default capacity
200, the buffer holds exactly the 200 requests `r6`…`r205` in arrival
order (the first 5 evicted oldest-first). -/
theorem C2_bounded_eviction :
    (∀ (cap : Nat) (evs : List RequestWillBeSentEvent), 1 ≤ cap →
      (runRequests cap evs).length ≤ cap) ∧
    (runRequests 200 evsC2).length = 200 ∧
    (runRequests 200 evsC2).map (fun e => e.request_id) =
      (List.range 200).map (fun i => "r" ++ toString (i + 6)) := by
  have hmap : (runRequests 200 evsC2).map (fun e => e.request_id) =
      (List.range 200).map (fun i => "r" ++ toString (i + 6)) := by decide
  refine ⟨?_, ?_, hmap⟩
  · intro cap evs hcap
    exact foldl_dispatch_length_le cap hcap evs [] (by simp)
  · have hl := congrArg List.length hmap
    simpa using hl

/-- Witness for C2 at the default capacity and the scenario's events. -/
theorem C2_bounded_eviction_witness :
    (runRequests 200 evsC2).length ≤ 200 :=
  C2_bounded_eviction.1 200 evsC2 (by decide)

/-- Whether every externally-provided step of the attachment sequence
succeeds. -/
def allOk (env : AttachEnv) : Bool :=
  env.sessionOk && env.enableOk && env.regRequestOk && env.regResponseOk &&
    env.regFailedOk && env.regFinishedOk

/-- `attach_to_target` never lets an exception reach its caller. -/
theorem attach_no_raise (env : AttachEnv) (st : NetState) (tid : String) :
    (attach_to_target env st tid).2 = false := by
  obtain ⟨s, en, r1, r2, r3, r4⟩ := env
  by_cases hm : tid ∈ st.monitored_targets
  · simp [attach_to_target, hm]
  · cases s <;> cases en <;> cases r1 <;> cases r2 <;> cases r3 <;> cases r4 <;>
      simp [attach_to_target, hm]

/-- When any step of the attachment sequence fails, the monitored-target
set is left unchanged. -/
theorem attach_failure_not_monitored (env : AttachEnv) (st : NetState) (tid : String)
    (hfail : allOk env = false) :
    (attach_to_target env st tid).1.monitored_targets = st.monitored_targets := by
  obtain ⟨s, en, r1, r2, r3, r4⟩ := env
  by_cases hm : tid ∈ st.monitored_targets
  · simp [attach_to_target, hm]
  · simp only [allOk] at hfail
    cases s <;> cases en <;> cases r1 <;> cases r2 <;> cases r3 <;> cases r4 <;>
      simp_all [attach_to_target, hm, ensureBucket]
    all_goals (split <;> rfl)

/-- When every step succeeds, the target ends up monitored (whether or not
it already was). -/
theorem attach_allOk_monitored (env : AttachEnv) (st : NetState) (tid : String)
    (hok : allOk env = true) :
    tid ∈ (attach_to_target env st tid).1.monitored_targets := by
  obtain ⟨s, en, r1, r2, r3, r4⟩ := env
  simp only [allOk, Bool.and_eq_true] at hok
  obtain ⟨⟨⟨⟨⟨hs, hen⟩, h1⟩, h2⟩, h3⟩, h4⟩ := hok
  subst hs hen h1 h2 h3 h4
  by_cases hm : tid ∈ st.monitored_targets
  · simp [attach_to_target, hm]
  · simp [attach_to_target, hm]

/-- C5: `attach_to_target` never raises to its caller; an already-monitored
target returns immediately with the state untouched (so no duplicate
subscription is registered); a failure in any step leaves the
monitored-target set unchanged (the target is not marked monitored); and a
later call on the resulting state with all steps succeeding ends with the
target monitored (the retry succeeds). -/
theorem C5_attach_idempotent_absorbing (env : AttachEnv) (st : NetState) (tid : String) :
    (attach_to_target env st tid).2 = false ∧
    (tid ∈ st.monitored_targets → attach_to_target env st tid = (st, false)) ∧
    (allOk env = false →
      (attach_to_target env st tid).1.monitored_targets = st.monitored_targets) ∧
    (∀ env₂, allOk env₂ = true →
      tid ∈ (attach_to_target env₂ (attach_to_target env st tid).1 tid).1.monitored_targets) := by
  refine ⟨attach_no_raise env st tid, ?_, attach_failure_not_monitored env st tid, ?_⟩
  · intro hm
    simp [attach_to_target, hm]
  · intro env₂ hok
    exact attach_allOk_monitored env₂ _ tid hok

/-- Witness for C5: an enable-step failure on a fresh state swallows the
error and leaves nothing monitored; the immediate retry with all steps
succeeding monitors the target. -/
theorem C5_attach_witness :
    (attach_to_target { enableOk := false } {} "T1").2 = false ∧
    (attach_to_target { enableOk := false } {} "T1").1.monitored_targets = [] ∧
    "T1" ∈ (attach_to_target {}
      (attach_to_target { enableOk := false } {} "T1").1 "T1").1.monitored_targets := by
  have h := C5_attach_idempotent_absorbing { enableOk := false } {} "T1"
  exact ⟨h.1, h.2.2.1 rfl, h.2.2.2 {} rfl⟩

/-- C6: the gate wait is bounded by `lock_wait_timeout = 2` — a gate that
only frees after more than 2 time units (or never) is not acquired, and a
non-acquired gate makes the request fail with the contention error without
issuing any capture; whenever the capture command is issued, its timeout
is `max(overall_timeout - 2, 1)`, with `overall_timeout` defaulting to 15
when the request supplies none. -/
theorem C6_capture_gate_timeouts (env : ScreenshotEnv) (t : Option Rat) :
    (∀ w, env.lockAvailableAfter = some w → lock_wait_timeout < w →
      lockAcquired env = false) ∧
    (env.lockAvailableAfter = Option.none → lockAcquired env = false) ∧
    (lockAcquired env = false → env.cancelledDuringAcquire = false →
      (on_ScreenshotEvent env t).outcome = ScreenshotOutcome.contentionError ∧
      (on_ScreenshotEvent env t).captureTimeout = Option.none) ∧
    (∀ q, (on_ScreenshotEvent env t).captureTimeout = some q →
      q = max (overallTimeout t - 2) 1) ∧
    overallTimeout Option.none = 15 := by
  refine ⟨?_, ?_, ?_, ?_, rfl⟩
  · intro w hw hlt
    simp only [lockAcquired, hw, decide_eq_false_iff_not]
    exact not_le.mpr hlt
  · intro hw
    simp [lockAcquired, hw]
  · intro hla hc
    constructor <;> simp [on_ScreenshotEvent, screenshot_body, hla, hc]
  · intro q hq
    simp only [on_ScreenshotEvent, screenshot_body] at hq
    by_cases hc : env.cancelledDuringAcquire
    · simp [hc] at hq
    · by_cases hl : lockAcquired env
      · rcases hsel : selectTarget env with _ | tidv
        · simp [hc, hl, hsel] at hq
        · rcases hse : env.sessionError with _ | msg
          · rcases hcr : env.captureResult <;>
              simp [hc, hl, hsel, hse, hcr] at hq <;>
              first
              | exact hq
              | exact hq.symm
          · simp [hc, hl, hsel, hse] at hq
      · simp [hc, hl] at hq

/-- C7: on every exit path of a screenshot request — success, contention,
no page target, session failure, missing payload, timeout, cancellation —
the Capture Gate is not held once the `finally` block has run; and a
subsequent request that finds the gate available does not fail with the
contention error. -/
theorem C7_gate_released (env : ScreenshotEnv) (t : Option Rat) :
    (on_ScreenshotEvent env t).lockHeldAtExit = false ∧
    (lockAcquired env = true → env.cancelledDuringAcquire = false →
      (on_ScreenshotEvent env t).outcome ≠ ScreenshotOutcome.contentionError) := by
  constructor
  · cases hb : (screenshot_body env t).lockAcquired <;>
      simp [on_ScreenshotEvent, releaseIfHeld, hb]
  · intro hl hc
    simp only [on_ScreenshotEvent, screenshot_body, hl, hc]
    rcases hsel : selectTarget env with _ | tidv <;>
      rcases hse : env.sessionError with _ | msg <;>
      rcases hcr : env.captureResult <;>
      simp

/-- An environment in which the gate is free immediately, a page target is
focused, and the capture round-trip returns an image payload. -/
def envAcq : ScreenshotEnv :=
  { lockAvailableAfter := some 0
    focused := some { target_id := "p1", target_type := "page" }
    captureResult := CaptureResult.data "imgdata" }

/-- Witness for C6: a never-available gate produces the contention error
with no capture issued, and the capture timeout used under a defaulted
overall timeout equals `max(15 - 2, 1) = 13`. -/
theorem C6_capture_gate_witness :
    (on_ScreenshotEvent { lockAvailableAfter := Option.none } (some 20)).outcome
      = ScreenshotOutcome.contentionError ∧
    (on_ScreenshotEvent { lockAvailableAfter := Option.none } (some 20)).captureTimeout
      = Option.none ∧
    (13 : Rat) = max (overallTimeout Option.none - 2) 1 := by
  have h := C6_capture_gate_timeouts { lockAvailableAfter := Option.none } (some 20)
  have hcontention := h.2.2.1 (h.2.1 rfl) rfl
  have h2 := C6_capture_gate_timeouts envAcq Option.none
  have hq : (on_ScreenshotEvent envAcq Option.none).captureTimeout = some 13 := by
    have hl : lockAcquired envAcq = true := by
      simp only [lockAcquired, envAcq, lock_wait_timeout, decide_eq_true_eq]
      norm_num
    simp only [envAcq] at hl
    simp [on_ScreenshotEvent, screenshot_body, envAcq, hl, selectTarget, overallTimeout]
    norm_num
  exact ⟨hcontention.1, hcontention.2, h2.2.2.2.1 13 hq⟩

/-- Witness for C7: in the successful-capture environment, the gate is
free at exit and the request does not report contention. -/
theorem C7_gate_released_witness :
    (on_ScreenshotEvent envAcq Option.none).lockHeldAtExit = false ∧
    (on_ScreenshotEvent envAcq Option.none).outcome ≠ ScreenshotOutcome.contentionError := by
  have h := C7_gate_released envAcq Option.none
  refine ⟨h.1, h.2 ?_ rfl⟩
  simp only [lockAcquired, envAcq, lock_wait_timeout, decide_eq_true_eq]
  norm_num
